import Mathlib

/-!
Verification development for the license-bot verification core (`src/bot.py`).

The embedding models the module-level state of the Flask application:

* `licenses`       — `credentials.json`, a mapping user → license record;
  the record's only field is the key string, so we store user → key
  (`licenses[user_name]["key"]` in the source).
* `machine_bindings` — `machine_bindings.json`, a mapping user → machine id.
* `failed_attempts`  — in-memory dict user → `{"count": ..., "penalty_end": ...}`.
* `banned_users`     — in-memory set of user names.

Python dicts are modelled as association lists with selector `alookup`,
updater `aset` and deleter `aremove`; the set is a `List String` updated by
`setAdd` (insert-if-absent, like `set.add`).  Time (`time.time()`) is an
abstract `Nat` passed as the `now` argument; `penalty_end` is a `Nat`
(created as `0`, later set to `now + duration`).

The HTTP handlers `verify` (`/verify`, bot.py lines 120–193) and
`check_status` (`/check_status`, lines 195–213) are embedded as state
transformers returning a response together with the post-state.  The
webhook notification (`requests.post(WEBHOOK_URL, ...)`) is modelled by two
Boolean parameters: `webhookSet` (whether `WEBHOOK_URL` is configured) and
`notifyRaises` (whether the `requests.post` call raises an exception, e.g. a
connection error).  The source wraps none of the three posts inside `verify`
in `try/except`, so a raised exception propagates out of the handler and
Flask's `@app.errorhandler(500)` (lines 247–250) produces an "Internal
server error" response instead of the computed decision; this is the
`Resp.serverError` outcome.  A notification failure that does not raise
(e.g. a non-2xx webhook response) is invisible to the handler and is not
modelled separately.
-/

namespace Bot

/-- One entry of the `failed_attempts` dict: `{"count": ..., "penalty_end": ...}`. -/
structure PenaltyInfo where
  count : Nat
  penalty_end : Nat
  deriving DecidableEq, Repr

/-- The module-level mutable state of `bot.py` that the two HTTP handlers
read and write. -/
structure BotState where
  licenses : List (String × String)
  machine_bindings : List (String × String)
  failed_attempts : List (String × PenaltyInfo)
  banned_users : List String
  deriving DecidableEq, Repr

/-- Responses of the `/verify` handler, abstracting the JSON body + HTTP status:
`badRequest` = 400 missing field; `banned p` = 403 `{"status": "banned", "penalty": p}`;
`rateLimited p` = 429 `{"status": "error", "penalty": p}`; `deniedMismatch` =
403 `{"status": "denied", "reason": "machine mismatch"}`; `success` = 200;
`failure` = 401 `{"status": "failure"}` (invalid key, first attempt);
`serverError` = 500 via the global error handler when the webhook post raises. -/
inductive Resp where
  | badRequest
  | banned (penalty : Nat)
  | rateLimited (penalty : Nat)
  | deniedMismatch
  | success
  | failure
  | serverError
  deriving DecidableEq, Repr

/-- Responses of the `/check_status` handler. -/
inductive CResp where
  | badRequest
  | banned
  | allowed
  | denied
  deriving DecidableEq, Repr

/-- Dict lookup: `m[k]` / `k in m`. -/
def alookup {α : Type} (m : List (String × α)) (k : String) : Option α :=
  match m with
  | [] => none
  | (k₁, v) :: rest => if k₁ = k then some v else alookup rest k

/-- Dict assignment `m[k] = v` (overwrite if present, append otherwise). -/
def aset {α : Type} (m : List (String × α)) (k : String) (v : α) : List (String × α) :=
  match m with
  | [] => [(k, v)]
  | (k₁, v₁) :: rest => if k₁ = k then (k, v) :: rest else (k₁, v₁) :: aset rest k v

/-- Dict removal `m.pop(k, None)` / `del m[k]`. -/
def aremove {α : Type} (m : List (String × α)) (k : String) : List (String × α) :=
  match m with
  | [] => []
  | (k₁, v₁) :: rest => if k₁ = k then aremove rest k else (k₁, v₁) :: aremove rest k

/-- `set.add`: insert if absent. -/
def setAdd (l : List String) (x : String) : List String :=
  if x ∈ l then l else x :: l

/-- `penalty_thresholds = [2, 3, 5, 10, 12]` (bot.py line 113). -/
def penalty_thresholds : List Nat := [2, 3, 5, 10, 12]

/-- `max_penalty = penalty_thresholds[-1]` (bot.py line 114). -/
def max_penalty : Nat := penalty_thresholds.getLastD 0

/-- Failure handling of `/verify` (bot.py lines 158–193): `setdefault` the
penalty entry, increment `count`, then either ban (`count > 5`), apply a
tiered penalty (`count > 1`), or report a first failure.  Each branch posts
to the webhook when `WEBHOOK_URL` is set; a raising post aborts the handler
after the state mutations of that branch, yielding `serverError`. -/
def handleFailure (webhookSet notifyRaises : Bool) (s : BotState)
    (user_name : String) (now : Nat) : Resp × BotState :=
  let prev := (alookup s.failed_attempts user_name).getD ⟨0, 0⟩
  let cnt := prev.count + 1
  let s₁ : BotState :=
    { s with failed_attempts := aset s.failed_attempts user_name ⟨cnt, prev.penalty_end⟩ }
  if cnt > penalty_thresholds.length then
    let s₂ : BotState := { s₁ with banned_users := setAdd s₁.banned_users user_name }
    if webhookSet && notifyRaises then (Resp.serverError, s₂)
    else (Resp.banned max_penalty, s₂)
  else if cnt > 1 then
    let dur := penalty_thresholds.getD (cnt - 2) 0
    let s₂ : BotState :=
      { s₁ with failed_attempts := aset s₁.failed_attempts user_name ⟨cnt, now + dur⟩ }
    if webhookSet && notifyRaises then (Resp.serverError, s₂)
    else (Resp.rateLimited dur, s₂)
  else
    if webhookSet && notifyRaises then (Resp.serverError, s₁)
    else (Resp.failure, s₁)

/-- License-key and machine-binding check of `/verify` (bot.py lines 142–156),
falling through to `handleFailure` on a missing record or key mismatch. -/
def verifyKey (webhookSet notifyRaises : Bool) (s : BotState)
    (user_name key machine_id : String) (now : Nat) : Resp × BotState :=
  if alookup s.licenses user_name = some key then
    match alookup s.machine_bindings user_name with
    | none =>
        let s₁ : BotState :=
          { s with machine_bindings := aset s.machine_bindings user_name machine_id }
        (Resp.success, { s₁ with failed_attempts := aremove s₁.failed_attempts user_name })
    | some bound =>
        if bound ≠ machine_id then
          (Resp.deniedMismatch, s)
        else
          (Resp.success, { s with failed_attempts := aremove s.failed_attempts user_name })
  else
    handleFailure webhookSet notifyRaises s user_name now

/-- The `/verify` handler (bot.py lines 120–193): missing-field check, ban
check, active-penalty check, then key/binding verification. -/
def verify (webhookSet notifyRaises : Bool) (s : BotState)
    (user_name key machine_id : String) (now : Nat) : Resp × BotState :=
  if user_name = "" ∨ key = "" ∨ machine_id = "" then
    (Resp.badRequest, s)
  else if user_name ∈ s.banned_users then
    (Resp.banned max_penalty, s)
  else
    match alookup s.failed_attempts user_name with
    | some pi =>
        if pi.penalty_end > now then
          (Resp.rateLimited (pi.penalty_end - now), s)
        else
          verifyKey webhookSet notifyRaises s user_name key machine_id now
    | none => verifyKey webhookSet notifyRaises s user_name key machine_id now

/-- The `/check_status` handler (bot.py lines 195–213). -/
def check_status (s : BotState) (user_name machine_id : String) : CResp × BotState :=
  if user_name = "" ∨ machine_id = "" then
    (CResp.badRequest, s)
  else if user_name ∈ s.banned_users then
    (CResp.banned, s)
  else if alookup s.machine_bindings user_name = some machine_id then
    (CResp.allowed, s)
  else
    (CResp.denied, s)

/-- States reachable from a process start (`failed_attempts = {}`,
`banned_users = set()`, arbitrary persisted licenses and bindings) by
`/verify` calls. -/
inductive Reachable : BotState → Prop where
  | init (lic mb : List (String × String)) : Reachable ⟨lic, mb, [], []⟩
  | verify_step (w nr : Bool) (s : BotState) (u k m : String) (t : Nat) :
      Reachable s → Reachable (verify w nr s u k m t).2

/-- Active-penalty test of the step-2 gate (bot.py lines 136–140):
the user has a `failed_attempts` entry whose `penalty_end` is in the future. -/
def underPenalty (s : BotState) (u : String) (now : Nat) : Bool :=
  match alookup s.failed_attempts u with
  | some pi => decide (pi.penalty_end > now)
  | none => false

/-- Concrete six-attempt run for claim C1: user "alice" holds license key
"K" and submits the wrong key "bad" at times 0, 0, 2, 5, 10, 20, each
attempt made after the previous penalty expired. -/
def c1Run : Resp × BotState :=
  verify true false
    (verify true false
      (verify true false
        (verify true false
          (verify true false
            (verify true false ⟨[("alice", "K")], [], [], []⟩ "alice" "bad" "m1" 0).2
            "alice" "bad" "m1" 0).2
          "alice" "bad" "m1" 2).2
        "alice" "bad" "m1" 5).2
      "alice" "bad" "m1" 10).2
    "alice" "bad" "m1" 20

/-- Concrete reachable state for claim C4: the state after the six-attempt
run above (same schedule as `c1Run`, rebuilt here so the two claims stay
independent). -/
def c4State : BotState :=
  (verify true false
    (verify true false
      (verify true false
        (verify true false
          (verify true false
            (verify true false ⟨[("alice", "K")], [], [], []⟩ "alice" "bad" "m1" 0).2
            "alice" "bad" "m1" 0).2
          "alice" "bad" "m1" 2).2
        "alice" "bad" "m1" 5).2
      "alice" "bad" "m1" 10).2
    "alice" "bad" "m1" 20).2

theorem alookup_aset_self {α : Type} (m : List (String × α)) (k : String) (v : α) :
    alookup (aset m k v) k = some v := by
  induction m with
  | nil => simp [aset, alookup]
  | cons hd tl ih =>
      obtain ⟨k₁, v₁⟩ := hd
      by_cases h : k₁ = k <;> simp [aset, alookup, h, ih]

theorem alookup_aset_ne {α : Type} (m : List (String × α)) (k k₂ : String) (v : α)
    (h : k₂ ≠ k) : alookup (aset m k v) k₂ = alookup m k₂ := by
  induction m with
  | nil => simp [aset, alookup, Ne.symm h]
  | cons hd tl ih =>
      obtain ⟨k₁, v₁⟩ := hd
      by_cases h₁ : k₁ = k
      · subst h₁
        simp [aset, alookup, Ne.symm h]
      · simp [aset, alookup, h₁, ih]

theorem aset_aset {α : Type} (m : List (String × α)) (k : String) (v v₂ : α) :
    aset (aset m k v) k v₂ = aset m k v₂ := by
  induction m with
  | nil => simp [aset]
  | cons hd tl ih =>
      obtain ⟨k₁, v₁⟩ := hd
      by_cases h : k₁ = k <;> simp [aset, h, ih]

theorem alookup_aremove_self {α : Type} (m : List (String × α)) (k : String) :
    alookup (aremove m k) k = none := by
  induction m with
  | nil => simp [aremove, alookup]
  | cons hd tl ih =>
      obtain ⟨k₁, v₁⟩ := hd
      by_cases h : k₁ = k <;> simp [aremove, alookup, h, ih]

theorem aremove_idem {α : Type} (m : List (String × α)) (k : String) :
    aremove (aremove m k) k = aremove m k := by
  induction m with
  | nil => simp [aremove]
  | cons hd tl ih =>
      obtain ⟨k₁, v₁⟩ := hd
      by_cases h : k₁ = k <;> simp [aremove, h, ih]

theorem mem_setAdd_self (l : List String) (x : String) : x ∈ setAdd l x := by
  by_cases h : x ∈ l <;> simp [setAdd, h]

/-- When the request is well-formed, the user is not banned and holds no
active penalty, `verify` reduces to the key/binding check of step 3. -/
theorem verify_eq_verifyKey (w nr : Bool) (s : BotState) (u k m : String) (t : Nat)
    (hu : u ≠ "") (hk : k ≠ "") (hm : m ≠ "")
    (hban : u ∉ s.banned_users)
    (hnp : underPenalty s u t = false) :
    verify w nr s u k m t = verifyKey w nr s u k m t := by
  unfold verify
  cases hfa : alookup s.failed_attempts u with
  | none => simp [hu, hk, hm, hban, hfa]
  | some pi =>
      simp only [underPenalty, hfa, decide_eq_false_iff_not, not_lt] at hnp
      simp [hu, hk, hm, hban, hfa, Nat.not_lt.mpr hnp]

/-- Step-3 fall-through: missing license record or key mismatch enters
failure handling. -/
theorem verifyKey_fail (w nr : Bool) (s : BotState) (u k m : String) (t : Nat)
    (hlic : alookup s.licenses u ≠ some k) :
    verifyKey w nr s u k m t = handleFailure w nr s u t := by
  simp [verifyKey, hlic]

/-- First failure for a fresh user: entry created with `count = 1`,
`penalty_end = 0`, response 401 `failure` (no penalty field). -/
theorem handleFailure_first (w : Bool) (s : BotState) (u : String) (t : Nat)
    (hfa : alookup s.failed_attempts u = none) :
    handleFailure w false s u t =
      (Resp.failure, { s with failed_attempts := aset s.failed_attempts u ⟨1, 0⟩ }) := by
  simp [handleFailure, hfa, penalty_thresholds]

/-- Second to fifth failure: the new count `c + 1` lies in `[2, 5]`, so the
tier `penalty_thresholds[c - 1]` is applied and the entry becomes
`⟨c + 1, t + tier⟩`. -/
theorem handleFailure_mid (w : Bool) (s : BotState) (u : String) (t c pe : Nat)
    (hfa : alookup s.failed_attempts u = some ⟨c, pe⟩)
    (h1 : 1 ≤ c) (h4 : c ≤ 4) :
    handleFailure w false s u t =
      (Resp.rateLimited (penalty_thresholds.getD (c - 1) 0),
       { s with
          failed_attempts :=
            aset s.failed_attempts u ⟨c + 1, t + penalty_thresholds.getD (c - 1) 0⟩ }) := by
  have hnb : ¬ (c + 1 > penalty_thresholds.length) := by
    simp [penalty_thresholds]; omega
  have hp : c + 1 > 1 := by omega
  have hidx : c + 1 - 2 = c - 1 := by omega
  simp [handleFailure, hfa, hnb, hp, hidx, aset_aset]

/-- Sixth and later failure: the new count exceeds the five tiers, the user
is added to `banned_users`, the penalty entry is merely re-written with the
incremented count (not removed), and the response is `banned max_penalty`. -/
theorem handleFailure_ban (w : Bool) (s : BotState) (u : String) (t c pe : Nat)
    (hfa : alookup s.failed_attempts u = some ⟨c, pe⟩)
    (h5 : 5 ≤ c) :
    handleFailure w false s u t =
      (Resp.banned max_penalty,
       { s with failed_attempts := aset s.failed_attempts u ⟨c + 1, pe⟩,
                banned_users := setAdd s.banned_users u }) := by
  have hb : c + 1 > penalty_thresholds.length := by
    simp [penalty_thresholds]; omega
  simp [handleFailure, hfa, hb]

/-- Success with no prior binding: the binding `u → m` is created and the
penalty entry removed. -/
theorem verifyKey_success_newbind (w nr : Bool) (s : BotState) (u k m : String) (t : Nat)
    (hlic : alookup s.licenses u = some k)
    (hbind : alookup s.machine_bindings u = none) :
    verifyKey w nr s u k m t =
      (Resp.success,
       { s with machine_bindings := aset s.machine_bindings u m,
                failed_attempts := aremove s.failed_attempts u }) := by
  simp [verifyKey, hlic, hbind]

/-- Success with a matching binding: only the penalty entry is removed. -/
theorem verifyKey_success_bound (w nr : Bool) (s : BotState) (u k m : String) (t : Nat)
    (hlic : alookup s.licenses u = some k)
    (hbind : alookup s.machine_bindings u = some m) :
    verifyKey w nr s u k m t =
      (Resp.success, { s with failed_attempts := aremove s.failed_attempts u }) := by
  simp [verifyKey, hlic, hbind]

/-- Machine mismatch: hard deny, no state change at all. -/
theorem verifyKey_mismatch (w nr : Bool) (s : BotState) (u k m bound : String) (t : Nat)
    (hlic : alookup s.licenses u = some k)
    (hbind : alookup s.machine_bindings u = some bound)
    (hne : bound ≠ m) :
    verifyKey w nr s u k m t = (Resp.deniedMismatch, s) := by
  simp [verifyKey, hlic, hbind, hne]

theorem handleFailure_fst_ne_success (w nr : Bool) (s : BotState) (u : String) (t : Nat) :
    (handleFailure w nr s u t).1 ≠ Resp.success := by
  unfold handleFailure
  dsimp only
  split
  · split <;> simp
  · split
    · split <;> simp
    · split <;> simp

/-- Inversion: if the key/binding check returns `success`, the license key
matched, the result binds `u` to `m`, the penalty entry is gone, and
licenses and bans are untouched. -/
theorem verifyKey_success_inv (w nr : Bool) (s s' : BotState) (u k m : String) (t : Nat)
    (h : verifyKey w nr s u k m t = (Resp.success, s')) :
    alookup s.licenses u = some k ∧
    s'.licenses = s.licenses ∧
    s'.banned_users = s.banned_users ∧
    alookup s'.machine_bindings u = some m ∧
    s'.failed_attempts = aremove s.failed_attempts u := by
  unfold verifyKey at h
  split at h
  case isTrue hlic =>
    refine ⟨hlic, ?_⟩
    split at h
    case h_1 hbind =>
      injection h with h₁ h₂
      subst h₂
      simp [alookup_aset_self]
    case h_2 bound hbind =>
      split at h
      case isTrue hne => simp at h
      case isFalse hne =>
        injection h with h₁ h₂
        subst h₂
        simp only [ne_eq, not_not] at hne
        subst hne
        exact ⟨rfl, rfl, hbind, rfl⟩
  case isFalse hlic =>
    exact absurd (congrArg Prod.fst h) (handleFailure_fst_ne_success w nr s u t)

/-- Inversion: a `success` response from `/verify` implies a well-formed
request from an unbanned user whose key matched; the post-state differs
from the pre-state only by the binding of `u` and the removed penalty
entry. -/
theorem verify_success_inv (w nr : Bool) (s s' : BotState) (u k m : String) (t : Nat)
    (h : verify w nr s u k m t = (Resp.success, s')) :
    u ≠ "" ∧ k ≠ "" ∧ m ≠ "" ∧
    u ∉ s.banned_users ∧
    alookup s.licenses u = some k ∧
    s'.licenses = s.licenses ∧
    s'.banned_users = s.banned_users ∧
    alookup s'.machine_bindings u = some m ∧
    s'.failed_attempts = aremove s.failed_attempts u := by
  unfold verify at h
  split at h
  case isTrue h₀ => simp at h
  case isFalse h₀ =>
    push_neg at h₀
    obtain ⟨hu, hk, hm⟩ := h₀
    split at h
    case isTrue hban => simp at h
    case isFalse hban =>
      refine ⟨hu, hk, hm, hban, ?_⟩
      split at h
      case h_1 pi hfa =>
        split at h
        case isTrue => simp at h
        case isFalse => exact verifyKey_success_inv w nr s s' u k m t h
      case h_2 hfa => exact verifyKey_success_inv w nr s s' u k m t h

/-- Claim C2 (confirmed): for every user in the Ban Set, every well-formed
`/verify` call and every well-formed `/check_status` call returns `Banned`
regardless of the submitted key or machine identifier, with no state
change, before any key or machine check can matter. -/
theorem C2_banned_rejected_unconditionally (w nr : Bool) (s : BotState)
    (u k m : String) (t : Nat)
    (hu : u ≠ "") (hk : k ≠ "") (hm : m ≠ "")
    (hban : u ∈ s.banned_users) :
    verify w nr s u k m t = (Resp.banned max_penalty, s) ∧
    check_status s u m = (CResp.banned, s) := by
  constructor
  · simp [verify, hu, hk, hm, hban]
  · simp [check_status, hu, hm, hban]

/-- Witness for C2: a banned user with the correct key and the bound machine
still gets `Banned` from both endpoints. -/
theorem C2_banned_rejected_unconditionally_witness :
    verify true false ⟨[("alice", "K")], [("alice", "m1")], [], ["alice"]⟩
        "alice" "K" "m1" 0 =
      (Resp.banned max_penalty, ⟨[("alice", "K")], [("alice", "m1")], [], ["alice"]⟩) ∧
    check_status ⟨[("alice", "K")], [("alice", "m1")], [], ["alice"]⟩ "alice" "m1" =
      (CResp.banned, ⟨[("alice", "K")], [("alice", "m1")], [], ["alice"]⟩) :=
  C2_banned_rejected_unconditionally true false
    ⟨[("alice", "K")], [("alice", "m1")], [], ["alice"]⟩ "alice" "K" "m1" 0
    (by decide) (by decide) (by decide) (by decide)

/-- Claim C5 (confirmed): a non-banned user with an active penalty
(`penalty_end > now`) gets `RateLimited(penalty_end - now)` and the state —
in particular `fail_count` — is completely unchanged; no license or machine
check is reached. -/
theorem C5_active_penalty_rate_limited (w nr : Bool) (s : BotState)
    (u k m : String) (t : Nat) (p : PenaltyInfo)
    (hu : u ≠ "") (hk : k ≠ "") (hm : m ≠ "")
    (hban : u ∉ s.banned_users)
    (hfa : alookup s.failed_attempts u = some p)
    (hpe : t < p.penalty_end) :
    verify w nr s u k m t = (Resp.rateLimited (p.penalty_end - t), s) := by
  simp [verify, hu, hk, hm, hban, hfa, hpe]

/-- Witness for C5: penalty ends at 10, the clock reads 3, even the correct
key is answered with `RateLimited 7` and no state change. -/
theorem C5_active_penalty_rate_limited_witness :
    verify true false ⟨[("alice", "K")], [], [("alice", ⟨4, 10⟩)], []⟩
        "alice" "K" "m1" 3 =
      (Resp.rateLimited 7, ⟨[("alice", "K")], [], [("alice", ⟨4, 10⟩)], []⟩) :=
  C5_active_penalty_rate_limited true false
    ⟨[("alice", "K")], [], [("alice", ⟨4, 10⟩)], []⟩ "alice" "K" "m1" 3 ⟨4, 10⟩
    (by decide) (by decide) (by decide) (by decide) (by decide) (by decide)

/-- Claim C6 (confirmed): when the key matches but the existing binding
differs from the submitted machine id, `/verify` answers
`Denied("machine mismatch")` and the whole state — in particular the
Penalty Tracker — is unchanged: no increment, no penalty. -/
theorem C6_machine_mismatch_frame (w nr : Bool) (s : BotState)
    (u k m bound : String) (t : Nat)
    (hu : u ≠ "") (hk : k ≠ "") (hm : m ≠ "")
    (hban : u ∉ s.banned_users)
    (hnp : underPenalty s u t = false)
    (hlic : alookup s.licenses u = some k)
    (hbind : alookup s.machine_bindings u = some bound)
    (hne : bound ≠ m) :
    verify w nr s u k m t = (Resp.deniedMismatch, s) := by
  rw [verify_eq_verifyKey w nr s u k m t hu hk hm hban hnp]
  exact verifyKey_mismatch w nr s u k m bound t hlic hbind hne

/-- Witness for C6: correct key from machine "m2" while bound to "m1", with
an expired penalty entry on record: `deniedMismatch`, state untouched. -/
theorem C6_machine_mismatch_frame_witness :
    verify true false ⟨[("alice", "K")], [("alice", "m1")], [("alice", ⟨3, 5⟩)], []⟩
        "alice" "K" "m2" 10 =
      (Resp.deniedMismatch,
       ⟨[("alice", "K")], [("alice", "m1")], [("alice", ⟨3, 5⟩)], []⟩) :=
  C6_machine_mismatch_frame true false
    ⟨[("alice", "K")], [("alice", "m1")], [("alice", ⟨3, 5⟩)], []⟩
    "alice" "K" "m2" "m1" 10
    (by decide) (by decide) (by decide) (by decide) (by decide) (by decide)
    (by decide) (by decide)

/-- Claim C7 (confirmed): a non-banned, non-rate-limited user with a
matching key and an absent-or-equal binding gets `Allowed`; the penalty
entry is removed (fail count reset), the binding `u → m` is present in the
post-state (created on first success), and licenses and bans are
untouched. -/
theorem C7_success_resets_and_binds (w nr : Bool) (s : BotState)
    (u k m : String) (t : Nat)
    (hu : u ≠ "") (hk : k ≠ "") (hm : m ≠ "")
    (hban : u ∉ s.banned_users)
    (hnp : underPenalty s u t = false)
    (hlic : alookup s.licenses u = some k)
    (hbind : alookup s.machine_bindings u = none ∨
             alookup s.machine_bindings u = some m) :
    (verify w nr s u k m t).1 = Resp.success ∧
    alookup (verify w nr s u k m t).2.failed_attempts u = none ∧
    alookup (verify w nr s u k m t).2.machine_bindings u = some m ∧
    (verify w nr s u k m t).2.licenses = s.licenses ∧
    (verify w nr s u k m t).2.banned_users = s.banned_users := by
  rw [verify_eq_verifyKey w nr s u k m t hu hk hm hban hnp]
  rcases hbind with hbind | hbind
  · rw [verifyKey_success_newbind w nr s u k m t hlic hbind]
    simp [alookup_aremove_self, alookup_aset_self]
  · rw [verifyKey_success_bound w nr s u k m t hlic hbind]
    simp [alookup_aremove_self, hbind]

/-- Witness for C7: first success after five failures (expired penalty)
resets the counter to nothing and creates the binding. -/
theorem C7_success_resets_and_binds_witness :
    (verify true false ⟨[("alice", "K")], [], [("alice", ⟨5, 2⟩)], []⟩
        "alice" "K" "m1" 2).1 = Resp.success ∧
    alookup (verify true false ⟨[("alice", "K")], [], [("alice", ⟨5, 2⟩)], []⟩
        "alice" "K" "m1" 2).2.failed_attempts "alice" = none ∧
    alookup (verify true false ⟨[("alice", "K")], [], [("alice", ⟨5, 2⟩)], []⟩
        "alice" "K" "m1" 2).2.machine_bindings "alice" = some "m1" ∧
    (verify true false ⟨[("alice", "K")], [], [("alice", ⟨5, 2⟩)], []⟩
        "alice" "K" "m1" 2).2.licenses =
      (⟨[("alice", "K")], [], [("alice", ⟨5, 2⟩)], []⟩ : BotState).licenses ∧
    (verify true false ⟨[("alice", "K")], [], [("alice", ⟨5, 2⟩)], []⟩
        "alice" "K" "m1" 2).2.banned_users =
      (⟨[("alice", "K")], [], [("alice", ⟨5, 2⟩)], []⟩ : BotState).banned_users :=
  C7_success_resets_and_binds true false
    ⟨[("alice", "K")], [], [("alice", ⟨5, 2⟩)], []⟩ "alice" "K" "m1" 2
    (by decide) (by decide) (by decide) (by decide) (by decide) (by decide)
    (by decide)

/-- Claim C8 (confirmed): `/check_status` is a pure read — the state is
returned unchanged — and answers `Banned` exactly for Ban Set members,
`Allowed` exactly when non-banned with a binding equal to the submitted
machine id, `Denied` otherwise; an unbound user is never `Allowed`. -/
theorem C8_check_status_pure_read (s : BotState) (u m : String)
    (hu : u ≠ "") (hm : m ≠ "") :
    (check_status s u m).2 = s ∧
    ((check_status s u m).1 = CResp.banned ↔ u ∈ s.banned_users) ∧
    (u ∉ s.banned_users →
      ((check_status s u m).1 = CResp.allowed ↔
        alookup s.machine_bindings u = some m)) ∧
    (u ∉ s.banned_users → alookup s.machine_bindings u ≠ some m →
      (check_status s u m).1 = CResp.denied) ∧
    (alookup s.machine_bindings u = none →
      (check_status s u m).1 ≠ CResp.allowed) := by
  by_cases hban : u ∈ s.banned_users
  · simp [check_status, hu, hm, hban]
  · by_cases hbind : alookup s.machine_bindings u = some m
    · simp [check_status, hu, hm, hban, hbind]
    · simp [check_status, hu, hm, hban, hbind]

/-- Witness for C8: an unbound, unbanned user is answered `denied` and the
state comes back identical. -/
theorem C8_check_status_pure_read_witness :
    (check_status ⟨[("alice", "K")], [], [], []⟩ "alice" "m1").2 =
      (⟨[("alice", "K")], [], [], []⟩ : BotState) ∧
    ((check_status ⟨[("alice", "K")], [], [], []⟩ "alice" "m1").1 = CResp.banned ↔
      "alice" ∈ (⟨[("alice", "K")], [], [], []⟩ : BotState).banned_users) ∧
    ("alice" ∉ (⟨[("alice", "K")], [], [], []⟩ : BotState).banned_users →
      ((check_status ⟨[("alice", "K")], [], [], []⟩ "alice" "m1").1 = CResp.allowed ↔
        alookup (⟨[("alice", "K")], [], [], []⟩ : BotState).machine_bindings "alice" =
          some "m1")) ∧
    ("alice" ∉ (⟨[("alice", "K")], [], [], []⟩ : BotState).banned_users →
      alookup (⟨[("alice", "K")], [], [], []⟩ : BotState).machine_bindings "alice" ≠
        some "m1" →
      (check_status ⟨[("alice", "K")], [], [], []⟩ "alice" "m1").1 = CResp.denied) ∧
    (alookup (⟨[("alice", "K")], [], [], []⟩ : BotState).machine_bindings "alice" = none →
      (check_status ⟨[("alice", "K")], [], [], []⟩ "alice" "m1").1 ≠ CResp.allowed) :=
  C8_check_status_pure_read ⟨[("alice", "K")], [], [], []⟩ "alice" "m1"
    (by decide) (by decide)

/-- Claim C10 (confirmed): successful verification is idempotent — a
`/verify` call that returns `success` leaves a state from which repeating
the call (same user, key, machine, at any later time, with any webhook
configuration) again returns `success` and the exact same state. -/
theorem C10_success_idempotent (w nr w₂ nr₂ : Bool) (s s₂ : BotState)
    (u k m : String) (t t₂ : Nat)
    (h : verify w nr s u k m t = (Resp.success, s₂)) :
    verify w₂ nr₂ s₂ u k m t₂ = (Resp.success, s₂) := by
  obtain ⟨hu, hk, hm, hban, hlic, hlics, hbans, hbind, hfail⟩ :=
    verify_success_inv w nr s s₂ u k m t h
  have hban₂ : u ∉ s₂.banned_users := by rw [hbans]; exact hban
  have hfa₂ : alookup s₂.failed_attempts u = none := by
    rw [hfail]; exact alookup_aremove_self s.failed_attempts u
  have hnp₂ : underPenalty s₂ u t₂ = false := by simp [underPenalty, hfa₂]
  have hlic₂ : alookup s₂.licenses u = some k := by rw [hlics]; exact hlic
  rw [verify_eq_verifyKey w₂ nr₂ s₂ u k m t₂ hu hk hm hban₂ hnp₂,
      verifyKey_success_bound w₂ nr₂ s₂ u k m t₂ hlic₂ hbind]
  have hrm : aremove s₂.failed_attempts u = s₂.failed_attempts := by
    rw [hfail, aremove_idem]
  rw [hrm]

/-- Witness for C10: after a first successful verification the repeated call
returns `success` on the unchanged state. -/
theorem C10_success_idempotent_witness :
    verify true false ⟨[("alice", "K")], [("alice", "m1")], [], []⟩
        "alice" "K" "m1" 5 =
      (Resp.success, ⟨[("alice", "K")], [("alice", "m1")], [], []⟩) :=
  C10_success_idempotent true false true false
    ⟨[("alice", "K")], [], [], []⟩ ⟨[("alice", "K")], [("alice", "m1")], [], []⟩
    "alice" "K" "m1" 0 5 (by decide)

/-- Claim C3 (code bug): the three `requests.post(WEBHOOK_URL, ...)` calls
inside `/verify` are not wrapped in `try/except`, so a raised exception
(e.g. a connection error) propagates out of the handler and the global 500
handler replies "Internal server error" instead of the computed decision;
on the ban transition the user is nonetheless already in the Ban Set.  With
a non-raising notifier the same inputs yield the decisions `failure` and
`banned`. -/
theorem C3_notifier_exception_changes_response :
    (verify true false ⟨[("alice", "K")], [], [], []⟩ "alice" "bad" "m1" 0).1 =
      Resp.failure ∧
    (verify true true ⟨[("alice", "K")], [], [], []⟩ "alice" "bad" "m1" 0).1 =
      Resp.serverError ∧
    (verify true false ⟨[("alice", "K")], [], [("alice", ⟨5, 3⟩)], []⟩
        "alice" "bad" "m1" 3).1 = Resp.banned max_penalty ∧
    (verify true true ⟨[("alice", "K")], [], [("alice", ⟨5, 3⟩)], []⟩
        "alice" "bad" "m1" 3).1 = Resp.serverError ∧
    "alice" ∈ (verify true true ⟨[("alice", "K")], [], [("alice", ⟨5, 3⟩)], []⟩
        "alice" "bad" "m1" 3).2.banned_users ∧
    Resp.serverError ≠ Resp.failure ∧
    Resp.serverError ≠ Resp.banned max_penalty := by decide

/-- Claim C4, counterexample: the state reached by six failing attempts of
"alice" (schedule of `c4State`) is reachable, yet "alice" both keeps a
`failed_attempts` entry (count 6) and belongs to the Ban Set, refuting the
claimed mutual exclusion. -/
theorem C4_counterexample :
    Reachable c4State ∧
    alookup c4State.failed_attempts "alice" = some ⟨6, 20⟩ ∧
    "alice" ∈ c4State.banned_users := by
  refine ⟨?_, by decide, by decide⟩
  exact Reachable.verify_step true false _ "alice" "bad" "m1" 20
    (Reachable.verify_step true false _ "alice" "bad" "m1" 10
      (Reachable.verify_step true false _ "alice" "bad" "m1" 5
        (Reachable.verify_step true false _ "alice" "bad" "m1" 2
          (Reachable.verify_step true false _ "alice" "bad" "m1" 0
            (Reachable.verify_step true false _ "alice" "bad" "m1" 0
              (Reachable.init [("alice", "K")] []))))))

/-- Claim C4 (corrected): the ban transition does not clear the Penalty
Tracker — the `/verify` call that bans a user leaves the user with both the
(incremented) `failed_attempts` entry and Ban Set membership, so the two
are not mutually exclusive; the stale entry is merely shadowed because the
ban check runs first. -/
theorem C4_amended_ban_keeps_penalty_entry (w : Bool) (s : BotState)
    (u k m : String) (t c pe : Nat)
    (hu : u ≠ "") (hk : k ≠ "") (hm : m ≠ "")
    (hban : u ∉ s.banned_users)
    (hfa : alookup s.failed_attempts u = some ⟨c, pe⟩)
    (hpe : pe ≤ t)
    (hlic : alookup s.licenses u ≠ some k)
    (h5 : 5 ≤ c) :
    (verify w false s u k m t).1 = Resp.banned max_penalty ∧
    alookup (verify w false s u k m t).2.failed_attempts u = some ⟨c + 1, pe⟩ ∧
    u ∈ (verify w false s u k m t).2.banned_users := by
  rw [verify_eq_verifyKey w false s u k m t hu hk hm hban
        (by simp [underPenalty, hfa]; omega),
      verifyKey_fail w false s u k m t hlic,
      handleFailure_ban w s u t c pe hfa h5]
  exact ⟨rfl, alookup_aset_self s.failed_attempts u ⟨c + 1, pe⟩,
    mem_setAdd_self s.banned_users u⟩

/-- Witness for the amended C4: the sixth failure bans "alice" and leaves
her entry `⟨6, 3⟩` in place. -/
theorem C4_amended_ban_keeps_penalty_entry_witness :
    (verify true false ⟨[("alice", "K")], [], [("alice", ⟨5, 3⟩)], []⟩
        "alice" "bad" "m1" 3).1 = Resp.banned max_penalty ∧
    alookup (verify true false ⟨[("alice", "K")], [], [("alice", ⟨5, 3⟩)], []⟩
        "alice" "bad" "m1" 3).2.failed_attempts "alice" = some ⟨6, 3⟩ ∧
    "alice" ∈ (verify true false ⟨[("alice", "K")], [], [("alice", ⟨5, 3⟩)], []⟩
        "alice" "bad" "m1" 3).2.banned_users :=
  C4_amended_ban_keeps_penalty_entry true
    ⟨[("alice", "K")], [], [("alice", ⟨5, 3⟩)], []⟩ "alice" "bad" "m1" 3 5 3
    (by decide) (by decide) (by decide) (by decide) (by decide) (by decide)
    (by decide) (by decide)

/-- Claim C1, counterexample: in the very run the claim describes (fresh
licensed user, wrong key on every attempt, attempts spaced past each
penalty: times 0, 0, 2, 5, 10, 20), the sixth failing attempt already
returns `banned 12` — not the claimed `RateLimited(12s)` — because
`attempt_count > len(penalty_thresholds)` holds at count 6; the 12-second
tier and a seventh pre-ban failure never happen. -/
theorem C1_counterexample :
    c1Run.1 = Resp.banned 12 ∧ c1Run.1 ≠ Resp.rateLimited 12 := by decide

/-- Claim C1 (corrected): for a fresh user with a license, submitting a
wrong key on every attempt (each attempt made after the previous penalty
expired), the outcomes are: first failure `Denied` (401, no rate limit),
second `RateLimited 2`, third `RateLimited 3`, fourth `RateLimited 5`,
fifth `RateLimited 10`, and the sixth and every later attempt returns
`Banned` with the user in the ban listing; the sixth tier (12 s) is
unreachable. -/
theorem C1_amended_escalation (w : Bool) (s : BotState) (u k m lk : String)
    (t₁ t₂ t₃ t₄ t₅ t₆ t₇ : Nat)
    (hu : u ≠ "") (hk : k ≠ "") (hm : m ≠ "")
    (hban : u ∉ s.banned_users)
    (hfresh : alookup s.failed_attempts u = none)
    (hlic : alookup s.licenses u = some lk) (hwrong : lk ≠ k)
    (h₃ : t₂ + 2 ≤ t₃) (h₄ : t₃ + 3 ≤ t₄) (h₅ : t₄ + 5 ≤ t₅) (h₆ : t₅ + 10 ≤ t₆) :
    verify w false s u k m t₁ =
      (Resp.failure,
       { s with failed_attempts := aset s.failed_attempts u ⟨1, 0⟩ }) ∧
    verify w false { s with failed_attempts := aset s.failed_attempts u ⟨1, 0⟩ }
        u k m t₂ =
      (Resp.rateLimited 2,
       { s with failed_attempts := aset s.failed_attempts u ⟨2, t₂ + 2⟩ }) ∧
    verify w false { s with failed_attempts := aset s.failed_attempts u ⟨2, t₂ + 2⟩ }
        u k m t₃ =
      (Resp.rateLimited 3,
       { s with failed_attempts := aset s.failed_attempts u ⟨3, t₃ + 3⟩ }) ∧
    verify w false { s with failed_attempts := aset s.failed_attempts u ⟨3, t₃ + 3⟩ }
        u k m t₄ =
      (Resp.rateLimited 5,
       { s with failed_attempts := aset s.failed_attempts u ⟨4, t₄ + 5⟩ }) ∧
    verify w false { s with failed_attempts := aset s.failed_attempts u ⟨4, t₄ + 5⟩ }
        u k m t₅ =
      (Resp.rateLimited 10,
       { s with failed_attempts := aset s.failed_attempts u ⟨5, t₅ + 10⟩ }) ∧
    verify w false { s with failed_attempts := aset s.failed_attempts u ⟨5, t₅ + 10⟩ }
        u k m t₆ =
      (Resp.banned max_penalty,
       { s with failed_attempts := aset s.failed_attempts u ⟨6, t₅ + 10⟩,
                banned_users := setAdd s.banned_users u }) ∧
    u ∈ ({ s with failed_attempts := aset s.failed_attempts u ⟨6, t₅ + 10⟩,
                  banned_users := setAdd s.banned_users u } : BotState).banned_users ∧
    verify w false { s with failed_attempts := aset s.failed_attempts u ⟨6, t₅ + 10⟩,
                            banned_users := setAdd s.banned_users u } u k m t₇ =
      (Resp.banned max_penalty,
       { s with failed_attempts := aset s.failed_attempts u ⟨6, t₅ + 10⟩,
                banned_users := setAdd s.banned_users u }) := by
  have hlicne : alookup s.licenses u ≠ some k := by
    rw [hlic]; simp [hwrong]
  refine ⟨?_, ?_, ?_, ?_, ?_, ?_, ?_, ?_⟩
  · rw [verify_eq_verifyKey w false s u k m t₁ hu hk hm hban
          (by simp [underPenalty, hfresh]),
        verifyKey_fail w false s u k m t₁ hlicne,
        handleFailure_first w s u t₁ hfresh]
  · rw [verify_eq_verifyKey w false
          { s with failed_attempts := aset s.failed_attempts u ⟨1, 0⟩ } u k m t₂
          hu hk hm hban (by simp [underPenalty, alookup_aset_self]),
        verifyKey_fail w false
          { s with failed_attempts := aset s.failed_attempts u ⟨1, 0⟩ } u k m t₂ hlicne,
        handleFailure_mid w
          { s with failed_attempts := aset s.failed_attempts u ⟨1, 0⟩ } u t₂ 1 0
          (alookup_aset_self _ _ _) (by omega) (by omega)]
    simp [aset_aset, penalty_thresholds]
  · rw [verify_eq_verifyKey w false
          { s with failed_attempts := aset s.failed_attempts u ⟨2, t₂ + 2⟩ } u k m t₃
          hu hk hm hban (by simp [underPenalty, alookup_aset_self]; omega),
        verifyKey_fail w false
          { s with failed_attempts := aset s.failed_attempts u ⟨2, t₂ + 2⟩ } u k m t₃
          hlicne,
        handleFailure_mid w
          { s with failed_attempts := aset s.failed_attempts u ⟨2, t₂ + 2⟩ } u t₃ 2
          (t₂ + 2) (alookup_aset_self _ _ _) (by omega) (by omega)]
    simp [aset_aset, penalty_thresholds]
  · rw [verify_eq_verifyKey w false
          { s with failed_attempts := aset s.failed_attempts u ⟨3, t₃ + 3⟩ } u k m t₄
          hu hk hm hban (by simp [underPenalty, alookup_aset_self]; omega),
        verifyKey_fail w false
          { s with failed_attempts := aset s.failed_attempts u ⟨3, t₃ + 3⟩ } u k m t₄
          hlicne,
        handleFailure_mid w
          { s with failed_attempts := aset s.failed_attempts u ⟨3, t₃ + 3⟩ } u t₄ 3
          (t₃ + 3) (alookup_aset_self _ _ _) (by omega) (by omega)]
    simp [aset_aset, penalty_thresholds]
  · rw [verify_eq_verifyKey w false
          { s with failed_attempts := aset s.failed_attempts u ⟨4, t₄ + 5⟩ } u k m t₅
          hu hk hm hban (by simp [underPenalty, alookup_aset_self]; omega),
        verifyKey_fail w false
          { s with failed_attempts := aset s.failed_attempts u ⟨4, t₄ + 5⟩ } u k m t₅
          hlicne,
        handleFailure_mid w
          { s with failed_attempts := aset s.failed_attempts u ⟨4, t₄ + 5⟩ } u t₅ 4
          (t₄ + 5) (alookup_aset_self _ _ _) (by omega) (by omega)]
    simp [aset_aset, penalty_thresholds]
  · rw [verify_eq_verifyKey w false
          { s with failed_attempts := aset s.failed_attempts u ⟨5, t₅ + 10⟩ } u k m t₆
          hu hk hm hban (by simp [underPenalty, alookup_aset_self]; omega),
        verifyKey_fail w false
          { s with failed_attempts := aset s.failed_attempts u ⟨5, t₅ + 10⟩ } u k m t₆
          hlicne,
        handleFailure_ban w
          { s with failed_attempts := aset s.failed_attempts u ⟨5, t₅ + 10⟩ } u t₆ 5
          (t₅ + 10) (alookup_aset_self _ _ _) (by omega)]
    simp [aset_aset]
  · exact mem_setAdd_self s.banned_users u
  · have hmem : u ∈ ({ s with
        failed_attempts := aset s.failed_attempts u ⟨6, t₅ + 10⟩,
        banned_users := setAdd s.banned_users u } : BotState).banned_users :=
      mem_setAdd_self s.banned_users u
    simp [verify, hu, hk, hm, hmem]

/-- Witness for the amended C1: the concrete schedule 0, 0, 2, 5, 10, 20, 30
for user "alice" (license "K", submitted key "bad"). -/
theorem C1_amended_escalation_witness :
    verify true false ⟨[("alice", "K")], [], [], []⟩ "alice" "bad" "m1" 0 =
      (Resp.failure, ⟨[("alice", "K")], [], [("alice", ⟨1, 0⟩)], []⟩) ∧
    verify true false ⟨[("alice", "K")], [], [("alice", ⟨1, 0⟩)], []⟩
        "alice" "bad" "m1" 0 =
      (Resp.rateLimited 2, ⟨[("alice", "K")], [], [("alice", ⟨2, 2⟩)], []⟩) ∧
    verify true false ⟨[("alice", "K")], [], [("alice", ⟨2, 2⟩)], []⟩
        "alice" "bad" "m1" 2 =
      (Resp.rateLimited 3, ⟨[("alice", "K")], [], [("alice", ⟨3, 5⟩)], []⟩) ∧
    verify true false ⟨[("alice", "K")], [], [("alice", ⟨3, 5⟩)], []⟩
        "alice" "bad" "m1" 5 =
      (Resp.rateLimited 5, ⟨[("alice", "K")], [], [("alice", ⟨4, 10⟩)], []⟩) ∧
    verify true false ⟨[("alice", "K")], [], [("alice", ⟨4, 10⟩)], []⟩
        "alice" "bad" "m1" 10 =
      (Resp.rateLimited 10, ⟨[("alice", "K")], [], [("alice", ⟨5, 20⟩)], []⟩) ∧
    verify true false ⟨[("alice", "K")], [], [("alice", ⟨5, 20⟩)], []⟩
        "alice" "bad" "m1" 20 =
      (Resp.banned max_penalty,
       ⟨[("alice", "K")], [], [("alice", ⟨6, 20⟩)], ["alice"]⟩) ∧
    "alice" ∈ (⟨[("alice", "K")], [], [("alice", ⟨6, 20⟩)], ["alice"]⟩ :
        BotState).banned_users ∧
    verify true false ⟨[("alice", "K")], [], [("alice", ⟨6, 20⟩)], ["alice"]⟩
        "alice" "bad" "m1" 30 =
      (Resp.banned max_penalty,
       ⟨[("alice", "K")], [], [("alice", ⟨6, 20⟩)], ["alice"]⟩) :=
  C1_amended_escalation true ⟨[("alice", "K")], [], [], []⟩ "alice" "bad" "m1" "K"
    0 0 2 5 10 20 30
    (by decide) (by decide) (by decide) (by decide) (by decide) (by decide)
    (by decide) (by decide) (by decide) (by decide) (by decide)

end Bot
